import Mathlib

/-!
Verification of the datasift-python request-building and response-normalization
layer (`datasift/request.py`, `datasift/historics_preview.py`).

The Python code is shallowly embedded as executable Lean definitions:
  * JSON values decoded by `json.loads` are the inductive `JSON` (numbers
    modelled as integers; no claim depends on floats),
  * Python dicts are association lists built with insertion-order,
    later-value-wins semantics (`insertPair` / `dictOfPairs`),
  * exceptions become an `Except` result type,
  * the transport call `requests.request(...)` is modelled by the record
    `RequestRec` of arguments handed to it; the transport response is the
    record `HttpResponse` consumed by `build_response`.
-/

namespace Datasift

/-- JSON values as produced by the JSON decoder (`json.loads`).
Object keys are strings, as for any JSON-decoded Python dict. -/
inductive JSON where
  | obj (fields : List (String × JSON))
  | arr (elems : List JSON)
  | str (s : String)
  | num (n : Int)
  | bool (b : Bool)
  | null

/-- Python dict insertion: if the key exists, replace its value in place
(keeping first-insertion order); otherwise append. -/
def insertPair {α : Type} (m : List (String × α)) (k : String) (v : α) :
    List (String × α) :=
  if m.any (fun p => p.1 == k) then
    m.map (fun p => if p.1 == k then (k, v) else p)
  else m ++ [(k, v)]

/-- Python `dict(pairs)` / repeated `d[k] = v`: fold the pairs into a dict. -/
def dictOfPairs {α : Type} (l : List (String × α)) : List (String × α) :=
  l.foldl (fun m p => insertPair m p.1 p.2) []

/-- Lookup in a dict modelled as an association list. -/
def dictGet {α : Type} (m : List (String × α)) (k : String) : Option α :=
  (m.find? (fun kv => kv.1 == k)).map Prod.snd

/-- Whether a dict has a key (Python `k in d` for dicts). -/
def hasKey {α : Type} (m : List (String × α)) (k : String) : Bool :=
  m.any (fun kv => kv.1 == k)

/-- Whether `needle` occurs as a contiguous substring of `hay`
(Python `needle in hay` for strings). -/
def containsSub (needle hay : List Char) : Bool :=
  (List.range (hay.length + 1)).any (fun i => needle.isPrefixOf (hay.drop i))

/-- Python `"error" in data` applied to a decoded JSON payload, regardless of
its type (request.py line 74):
  * dict: key membership;
  * list: element equality with the string `"error"` (only a string element
    can compare equal to it);
  * string: substring test;
  * int / bool / None: `in` raises `TypeError`, modelled as `none`. -/
def containsError : JSON → Option Bool
  | .obj fields => some (fields.any (fun kv => kv.1 == "error"))
  | .arr elems => some (elems.any (fun e =>
      match e with | .str s => s == "error" | _ => false))
  | .str s => some (containsSub "error".data s.data)
  | .num _ => none
  | .bool _ => none
  | .null => none

/-- One element of a sequence fed to Python `dict.update`: it must unpack as a
key/value pair.  A two-element list `[k, v]` with a string key gives `(k, v)`;
a two-character string `"ab"` unpacks as the pair `('a', 'b')`; a dict with
exactly two keys unpacks as the pair of its keys.  Everything else raises
(`ValueError`/`TypeError`), modelled as `none`.  (A two-element list with a
non-string key would succeed in Python with a non-string dict key; keys are
modelled as strings here, and no code path in this repository reaches that
case.) -/
def pairOfElem : JSON → Option (String × JSON)
  | .arr [JSON.str k, v] => some (k, v)
  | .str s =>
      match s.data with
      | [a, b] => some (String.mk [a], JSON.str (String.mk [b]))
      | _ => none
  | .obj [(k1, _), (k2, _)] => some (k1, JSON.str k2)
  | _ => none

/-- Map a fallible function over a list, failing if any element fails
(Python `dict.update` over a sequence raises at the first bad element;
only success/failure of the whole update is observable here). -/
def mapOptionAll {α β : Type} (f : α → Option β) : List α → Option (List β)
  | [] => some []
  | x :: xs =>
    match f x with
    | none => none
    | some y =>
      match mapOptionAll f xs with
      | none => none
      | some ys => some (y :: ys)

/-- Python `dict.update(data)` on a fresh dict (`Response.__init__`,
request.py line 158): a mapping copies its items; a list must be a sequence
of key/value pairs; a string iterates its characters, each of which is a
length-1 string and fails to unpack (so only the empty string succeeds);
an int / bool / None is not iterable.  `none` models the raised
`ValueError`/`TypeError`. -/
def dictUpdate : JSON → Option (List (String × JSON))
  | .obj fields => some fields
  | .arr elems => mapOptionAll pairOfElem elems
  | .str s => if s == "" then some [] else none
  | .num _ => none
  | .bool _ => none
  | .null => none

/-- Modelled from the spec: the client identifier put in the fixed default
header set (`USER_AGENT`, imported from `datasift/__init__.py`, which is not
in `src/`).  The spec only calls it "a distinguishing client identifier";
its exact value is immaterial to every claim. -/
def USER_AGENT : String := "DataSiftPythonClient"

/-- Constant `PartialRequest.HEADERS`, the fixed default header set
(request.py lines 20-22), already as a dict (`dict(self.HEADERS)`). -/
def HEADERS : List (String × String) := [("User-Agent", USER_AGENT)]

/-- Helper `PartialRequest.dicts(*dicts)` (request.py lines 93-94):
`dict(kv for d in dicts if d for kv in d.items())` — skip falsy arguments
(`None` and empty dicts), chain all items, and build one dict with
later-item-wins update semantics. -/
def dicts (ds : List (Option (List (String × String)))) :
    List (String × String) :=
  dictOfPairs (((ds.filterMap id).filter (fun d => !d.isEmpty)).flatten)

/-- Strip leading and trailing `/` characters (Python `a.strip('/')`). -/
def stripSlashes (s : String) : String :=
  String.mk (((s.data.dropWhile (fun c => c == '/')).reverse.dropWhile
    (fun c => c == '/')).reverse)

/-- Helper `PartialRequest.path(*args)` (request.py lines 90-91):
`'/'.join(a.strip('/') for a in args if a)` — drop falsy segments
(`None` and the empty string), strip surrounding slashes, join with `/`. -/
def pathJoin (args : List (Option String)) : String :=
  String.intercalate "/"
    (((args.filterMap id).filter (fun a => a != "")).map stripSlashes)

/-- Class `DatasiftAuth` (request.py lines 97-111): a stored (user, key) pair. -/
structure DatasiftAuth where
  user : String
  key : String

/-- Method `DatasiftAuth.__call__` (request.py lines 109-111): sets the
`Authorization` header on a request's headers. -/
def DatasiftAuth.applyTo (a : DatasiftAuth)
    (reqHeaders : List (String × String)) : List (String × String) :=
  insertPair reqHeaders "Authorization" (a.user ++ ":" ++ a.key)

/-- The body handed to the transport (`data=` argument of
`requests.request`).  `jsonOf v` stands for the serialized JSON text of `v`
(`json.dumps`); serialization to concrete text is abstracted, since no claim
inspects the raw characters of the body. -/
inductive Body where
  | noneB
  | rawStr (s : String)
  | jsonOf (v : JSON)

/-- The state of `PartialRequest` (request.py lines 24-30).  The Python
attribute `prefix` is named `pfx` here (`prefix` is a Lean keyword). -/
structure PartialRequest where
  auth : DatasiftAuth
  pfx : Option String
  headers : Option (List (String × String))
  timeout : Option Int
  proxies : Option (List (String × String))
  verify : Bool

/-- Builder `PartialRequest.with_prefix(path, *args)` (request.py lines 54-56):
`prefix = '/'.join((path,) + args)`, then a new `PartialRequest` with that
path prefix and every other attribute carried over unchanged.  Note the
stored `self.prefix` does not appear in the join. -/
def with_pfx (b : PartialRequest) (path : String) (args : List String) :
    PartialRequest :=
  { b with pfx := some (String.intercalate "/" (path :: args)) }

/-- The argument record of the transport call `requests.request(...)`
(request.py lines 45-50). -/
structure RequestRec where
  method : String
  url : String
  params : Option (List (String × JSON))
  data : Body
  auth : DatasiftAuth
  headers : List (String × String)
  timeout : Option Int
  proxies : Option (List (String × String))
  verify : Bool

/-- Method `PartialRequest.__call__` (request.py lines 43-50): build the URL
`'%s://%s' % (scheme, path(host, version, prefix, path))` and hand every
argument to the transport. -/
def PartialRequest.call (b : PartialRequest) (method : String) (path : String)
    (params : Option (List (String × JSON))) (data : Body)
    (hdrs : Option (List (String × String))) : RequestRec :=
  { method := method
  , url := "https" ++ "://" ++
      pathJoin [some "api.datasift.com", some "v1.1", b.pfx, some path]
  , params := params
  , data := data
  , auth := b.auth
  , headers := dicts [b.headers, hdrs, some HEADERS]
  , timeout := b.timeout
  , proxies := b.proxies
  , verify := b.verify }

/-- The transport request issued by `PartialRequest.get(path, params,
headers)` (request.py lines 32-33); the transport response it receives is
then normalized by `build_response`, modelled separately below. -/
def PartialRequest.getReq (b : PartialRequest) (path : String)
    (params : Option (List (String × JSON)))
    (hdrs : Option (List (String × String))) : RequestRec :=
  b.call "get" path params Body.noneB hdrs

/-- The transport request issued by `PartialRequest.post(path, params,
headers, data)` (request.py lines 35-36). -/
def PartialRequest.postReq (b : PartialRequest) (path : String)
    (params : Option (List (String × JSON)))
    (hdrs : Option (List (String × String))) (data : Body) : RequestRec :=
  b.call "post" path params data hdrs

/-- Method `PartialRequest.json(path, data)` (request.py lines 38-41) with a
non-string payload: serialize it to JSON text (`Body.jsonOf`) and POST it
with a `Content-Type: application/json` header.  (A payload that is already
a string would be passed through unchanged; the only caller in this
repository passes a dict.) -/
def PartialRequest.jsonReq (b : PartialRequest) (path : String)
    (data : JSON) : RequestRec :=
  b.postReq path none (some [("Content-Type", "application/json")])
    (Body.jsonOf data)

/-- The transport response consumed by `build_response`
(`status_code`, `headers`, `text`). -/
structure HttpResponse where
  status_code : Int
  headers : List (String × String)
  text : String

/-- Modelled from the spec: the output-mapping post-processor `outputmapper`
from `datasift/output_mapper.py`, which is not in `src/`.  The spec calls it
"resource-specific post-processing applied to a decoded response object
before returning it to the caller", "keyed by the originating path-prefix
and endpoint name" — modelled as an arbitrary per-field in-place value
transformation, taking the path prefix, the endpoint and the field's key,
so it preserves the key structure of the primary view and leaves an empty
payload empty. -/
def OmFun : Type := Option String → Option String → String → JSON → JSON

/-- Apply the output mapping to the primary mapping view in place. -/
def applyOm (om : OmFun) (pfx ep : Option String)
    (fields : List (String × JSON)) : List (String × JSON) :=
  fields.map (fun kv => (kv.1, om pfx ep kv.1 kv.2))

/-- The object-shaped wrapper `Response` (request.py lines 145-174):
the transport response, the primary dict view (`self`, post-processed by the
output mapping), and `raw`, the deep copy `json.loads(json.dumps(data))` of
the decoded payload taken before the output mapping runs. -/
structure ResponseObj where
  response : HttpResponse
  primary : List (String × JSON)
  raw : JSON

/-- Constructor `Response.__init__(response, data, prefix, endpoint)` (request.py lines
156-160): `self.update(data)` (which raises for a non-mapping `data` unless
it is a sequence of pairs — modelled by `dictUpdate` returning `none`), then
`self.raw = json.loads(json.dumps(data))`, then
`outputmapper(self, prefix, endpoint)` mutating the primary view only. -/
def mkResponse (om : OmFun) (response : HttpResponse) (data : JSON)
    (pfx ep : Option String) : Option ResponseObj :=
  match dictUpdate data with
  | none => none
  | some fields =>
    some { response := response
         , primary := applyOm om pfx ep (dictOfPairs fields)
         , raw := data }

/-- The list-shaped wrapper `ListResponse` (request.py lines 114-142):
`self.raw = list(data)` and the list contents themselves (`self.extend(data)`). -/
structure ListResponseObj where
  response : HttpResponse
  raw : List JSON
  items : List JSON

/-- The exceptions `build_response` can raise (request.py lines 69-86).
`typeError` is the `TypeError` raised by `"error" in data` on a
non-container payload; `valueError` is the `ValueError`/`TypeError` raised
by `dict.update` inside `Response.__init__` on a payload that is not a
mapping (nor a sequence of pairs); `httpError` is
`requests.exceptions.HTTPError` from `response.raise_for_status()`. -/
inductive PyError where
  | authException (payload : JSON)
  | dataSiftApiException (wrapped : ResponseObj)
  | dataSiftApiFailure (msg : String)
  | httpError
  | typeError
  | valueError

/-- A normal return of `build_response`: an object-shaped response, a
list-shaped response, or the implicit `None` when no branch matches. -/
inductive BuildOk where
  | objResp (r : ResponseObj)
  | listResp (r : ListResponseObj)
  | noneVal

/-- Normalizer `PartialRequest.build_response(response, path, parser)` (request.py
lines 58-86).  `parse` is the `parser` argument (default `json.loads`);
`parse text = none` models the `ValueError` it raises on invalid JSON.
`raise_for_status()` raises exactly for status codes in [400, 600). -/
def build_response (om : OmFun) (pfx : Option String)
    (parse : String → Option JSON) (response : HttpResponse)
    (path : Option String) : Except PyError BuildOk :=
  if response.status_code != 204 then
    match parse response.text with
    | none => .error (.dataSiftApiFailure "Unable to decode returned data.")
    | some data =>
      match containsError data with
      | none => .error .typeError
      | some true =>
        if response.status_code == 401 then
          .error (.authException data)
        else
          match mkResponse om response data none none with
          | none => .error .valueError
          | some r => .error (.dataSiftApiException r)
      | some false =>
        if 400 ≤ response.status_code ∧ response.status_code < 600 then
          .error .httpError
        else
          match data with
          | .obj _ =>
            match mkResponse om response data pfx path with
            | none => .error .valueError
            | some r => .ok (.objResp r)
          | .arr elems =>
            .ok (.listResp { response := response, raw := elems, items := elems })
          | _ => .ok .noneVal
  else
    match mkResponse om response (JSON.obj []) none none with
    | none => .error .valueError
    | some r => .ok (.objResp r)

/-- Class `HistoricsPreview` (historics_preview.py lines 5-9): holds the builder
derived with the fixed `preview` path prefix. -/
structure HistoricsPreview where
  request : PartialRequest

/-- Constructor `HistoricsPreview.__init__(request)` (historics_preview.py lines 8-9):
`self.request = request.with_prefix('preview')`. -/
def HistoricsPreview.init (request : PartialRequest) : HistoricsPreview :=
  { request := with_pfx request "preview" [] }

/-- Exception `HistoricSourcesRequired`, the validation error raised by `create`. -/
inductive CreateError where
  | historicSourcesRequired

/-- Python `','.join(l)`. -/
def commaJoin (l : List String) : String := String.intercalate "," l

/-- Python truthiness of an optional int argument (`if end:`):
`None` and `0` are falsy. -/
def truthyOptInt : Option Int → Bool
  | some n => n != 0
  | none => false

/-- The `params` dict built by `HistoricsPreview.create`
(historics_preview.py lines 33-35):
`{'hash': stream, 'start': start, 'sources': ','.join(sources),
'parameters': ','.join(parameters)}`, then `params['end'] = end` under
`if end:` (Python truthiness).  The Python parameter `end` is `endTime`
here (`end` is a Lean keyword). -/
def createParams (stream : String) (start : Int)
    (parameters sources : List String) (endTime : Option Int) :
    List (String × JSON) :=
  let params := [("hash", JSON.str stream), ("start", JSON.num start),
                 ("sources", JSON.str (commaJoin sources)),
                 ("parameters", JSON.str (commaJoin parameters))]
  match endTime with
  | some e => if e != 0 then insertPair params "end" (JSON.num e) else params
  | none => params

/-- Method `HistoricsPreview.create(stream, start, parameters, sources, end=None)`
(historics_preview.py lines 11-36): raise `HistoricSourcesRequired` when
`len(sources) == 0`, otherwise marshal the params and delegate to
`self.request.json('create', params)`.  The result is the single transport
request the call issues; the error case issues none. -/
def HistoricsPreview.create (h : HistoricsPreview) (stream : String)
    (start : Int) (parameters sources : List String) (endTime : Option Int) :
    Except CreateError RequestRec :=
  if sources.length == 0 then
    .error .historicSourcesRequired
  else
    .ok (h.request.jsonReq "create"
      (JSON.obj (createParams stream start parameters sources endTime)))

/-- Method `HistoricsPreview.get(preview_id)` (historics_preview.py lines 38-51):
`self.request.get('get', params=dict(id=preview_id))`. -/
def HistoricsPreview.getPreview (h : HistoricsPreview) (preview_id : String) :
    RequestRec :=
  h.request.getReq "get" (some [("id", JSON.str preview_id)]) none

/-- The number of transport calls a `create` result stands for: the
functional model issues a request exactly when `create` returns one. -/
def networkCalls (r : Except CreateError RequestRec) : Nat :=
  match r with
  | .error _ => 0
  | .ok _ => 1

/-- Python `d.update(other)` on an existing dict `m`: fold the other dict's
items in, later value winning (skipped entirely when the argument is `None`).
Spec-side building block for the claimed header-merge semantics. -/
def pyUpdate (m : List (String × String))
    (d : Option (List (String × String))) : List (String × String) :=
  match d with
  | none => m
  | some kvs => kvs.foldl (fun acc kv => insertPair acc kv.1 kv.2) m

/-- The header merge as the spec words it (claim C2): start from an empty
dict and update it, in order and with standard later-dict-wins update
semantics, with the builder's stored headers, then the explicit per-call
headers, then the fixed default set. -/
def specHeaderMerge (stored per_call : Option (List (String × String))) :
    List (String × String) :=
  pyUpdate (pyUpdate (pyUpdate [] stored) per_call) (some HEADERS)

/-- The request headers of the spec's concrete header-merge example: builder
headers `{"A": "1"}`, per-call headers `{"A": "2", "B": "3"}`. -/
def c2ExampleHeaders : List (String × String) :=
  (PartialRequest.call
    { auth := ⟨"u", "k"⟩, pfx := none, headers := some [("A", "1")],
      timeout := none, proxies := none, verify := true }
    "post" "x" none Body.noneB (some [("A", "2"), ("B", "3")])).headers

/-- Whether a `build_response` outcome is the generic API error
(`DataSiftApiException`). -/
def isApiException : Except PyError BuildOk → Bool
  | .error (.dataSiftApiException _) => true
  | _ => false

/-! ## Theorems -/

/-- Dropping empty lists before flattening changes nothing. -/
theorem flatten_filter_nonempty {α : Type} (l : List (List α)) :
    (l.filter (fun d => !d.isEmpty)).flatten = l.flatten := by
  induction l with
  | nil => rfl
  | cons d t ih => cases d <;> simp [List.filter_cons, ih]

/-- Helper lemma: `PartialRequest.dicts` over stored headers, call headers and the default
set computes exactly the spec-worded merge. -/
theorem dicts_eq_specMerge (s c : Option (List (String × String))) :
    dicts [s, c, some HEADERS] = specHeaderMerge s c := by
  cases s <;> cases c <;>
    simp [dicts, specHeaderMerge, pyUpdate, dictOfPairs,
      flatten_filter_nonempty, List.foldl_append, List.filterMap_cons]

/-- C2: for every terminal call, the request headers are the merge, in order
and with standard later-dict-wins update semantics, of the builder's stored
headers, then the explicit per-call headers, then the fixed default set; in
particular, for builder headers `{"A": "1"}` and call headers
`{"A": "2", "B": "3"}` the resulting headers are exactly `A: 2`, `B: 3` and
the fixed default identifier header — no key lost. -/
theorem C2_header_merge :
    (∀ (b : PartialRequest) (method path : String)
        (params : Option (List (String × JSON))) (data : Body)
        (hdrs : Option (List (String × String))),
      (b.call method path params data hdrs).headers
        = specHeaderMerge b.headers hdrs)
    ∧ dictGet c2ExampleHeaders "A" = some "2"
    ∧ dictGet c2ExampleHeaders "B" = some "3"
    ∧ dictGet c2ExampleHeaders "User-Agent" = some USER_AGENT
    ∧ c2ExampleHeaders.length = 3 := by
  refine ⟨?_, rfl, rfl, rfl, rfl⟩
  intro b method path params data hdrs
  exact dicts_eq_specMerge b.headers hdrs

/-- C1 (amended): `with_prefix(s1, ..., sn)` returns a new builder whose path
prefix equals exactly the given segments joined by `/` — the existing prefix
is discarded, not extended — and whose auth, headers, timeout, proxies and
verify settings are carried over unchanged from the original builder. -/
theorem C1_with_prefix_replaces (b : PartialRequest) (path : String)
    (args : List String) :
    with_pfx b path args =
      { auth := b.auth
      , pfx := some (String.intercalate "/" (path :: args))
      , headers := b.headers
      , timeout := b.timeout
      , proxies := b.proxies
      , verify := b.verify } := rfl

/-- C1 counterexample: on a builder whose stored path prefix is `"a"`,
`with_prefix("b")` yields the prefix `"b"`, not `"a/b"` as the claim
(existing prefix joined with the new segments by `/`) requires. -/
theorem C1_counterexample :
    (with_pfx
        { auth := ⟨"u", "k"⟩, pfx := some "a", headers := none,
          timeout := none, proxies := none, verify := true }
        "b" []).pfx = some "b"
    ∧ ("b" : String) ≠ "a" ++ "/" ++ "b" := by
  exact ⟨rfl, by decide⟩

/-- C4: calling `create` with an empty `sources` list raises
`HistoricSourcesRequired` before any network I/O: the result is the
validation error, no request record is built, and zero transport calls are
issued. -/
theorem C4_empty_sources (h : HistoricsPreview) (stream : String)
    (start : Int) (parameters : List String) (endTime : Option Int) :
    h.create stream start parameters [] endTime
        = Except.error CreateError.historicSourcesRequired
    ∧ networkCalls (h.create stream start parameters [] endTime) = 0 :=
  ⟨rfl, rfl⟩

/-- C8: an object-shaped `Response` constructed from a decoded payload `d`
(a mapping) always stores `raw := d`, the server payload verbatim, while the
primary mapping view is the one post-processed by the output mapping — the
raw copy is taken from `d` itself and is independent of the output-mapping
function. -/
theorem C8_raw_verbatim (om : OmFun) (response : HttpResponse)
    (fields : List (String × JSON)) (pfx ep : Option String) :
    mkResponse om response (JSON.obj fields) pfx ep =
      some { response := response
           , primary := applyOm om pfx ep (dictOfPairs fields)
           , raw := JSON.obj fields } := rfl

/-- C3: for every non-204 response whose body decodes to a mapping
containing an `error` key, the normalizer fails before any mapping/sequence
shape routing: at HTTP status 401 it raises `AuthException` carrying the
decoded payload, and otherwise it raises `DataSiftApiException` carrying the
wrapped response (transport response with status and headers, post-processed
primary view, raw payload); in both cases the result is an error, so no
object-shaped or list-shaped response is ever returned for such a payload. -/
theorem C3_error_precedence (om : OmFun) (pfx : Option String)
    (parse : String → Option JSON) (response : HttpResponse)
    (path : Option String) (fields : List (String × JSON))
    (hparse : parse response.text = some (JSON.obj fields))
    (herr : hasKey fields "error" = true)
    (h204 : response.status_code ≠ 204) :
    build_response om pfx parse response path =
      (if response.status_code == 401 then
        Except.error (PyError.authException (JSON.obj fields))
      else
        Except.error (PyError.dataSiftApiException
          { response := response
          , primary := applyOm om none none (dictOfPairs fields)
          , raw := JSON.obj fields })) := by
  have h1 : (response.status_code != 204) = true := by
    simpa using h204
  have herr' : (fields.any fun kv => kv.1 == "error") = true := herr
  by_cases h401 : response.status_code = 401
  · simp [build_response, h1, hparse, containsError, herr', h401,
      mkResponse, dictUpdate]
  · have h2 : (response.status_code == 401) = false := by
      simpa using h401
    simp [build_response, h1, hparse, containsError, herr', h2,
      mkResponse, dictUpdate]

/-- C3 witness: a 401 response decoding to `{"error": "bad"}` produces
`AuthException` carrying the decoded payload. -/
theorem C3_witness :
    build_response (fun _ _ _ v => v) none
      (fun _ => some (JSON.obj [("error", JSON.str "bad")]))
      { status_code := 401, headers := [], text := "t" } none
      = Except.error (PyError.authException
          (JSON.obj [("error", JSON.str "bad")])) := by
  have h := C3_error_precedence (fun _ _ _ v => v) none
    (fun _ => some (JSON.obj [("error", JSON.str "bad")]))
    { status_code := 401, headers := [], text := "t" } none
    [("error", JSON.str "bad")] rfl (by decide) (by decide)
  simpa using h

/-- C6: for every response with HTTP status 204 the normalizer returns an
object-shaped response with an empty payload whose raw copy is the empty
payload, without consulting the JSON parser at all (`parse` is arbitrary and
unused). -/
theorem C6_no_content (om : OmFun) (pfx : Option String)
    (parse : String → Option JSON) (response : HttpResponse)
    (path : Option String) (h : response.status_code = 204) :
    build_response om pfx parse response path =
      Except.ok (BuildOk.objResp
        { response := response, primary := [], raw := JSON.obj [] }) := by
  simp [build_response, h, mkResponse, dictUpdate, dictOfPairs, applyOm]

/-- C6 witness: a 204 response whose body is not even valid JSON (the parser
rejects every input) still yields the empty object-shaped response. -/
theorem C6_witness :
    build_response (fun _ _ _ v => v) none (fun _ => none)
      { status_code := 204, headers := [], text := "not json" } none
      = Except.ok (BuildOk.objResp
        { response := { status_code := 204, headers := [], text := "not json" }
        , primary := [], raw := JSON.obj [] }) :=
  C6_no_content (fun _ _ _ v => v) none (fun _ => none)
    { status_code := 204, headers := [], text := "not json" } none rfl

/-- C7: for every non-204 response whose body the parser rejects (invalid
JSON), the normalizer raises the distinct decode-failure error
`DataSiftApiFailure` — the parser's own exception never propagates. -/
theorem C7_decode_failure (om : OmFun) (pfx : Option String)
    (parse : String → Option JSON) (response : HttpResponse)
    (path : Option String) (h204 : response.status_code ≠ 204)
    (hbad : parse response.text = none) :
    build_response om pfx parse response path =
      Except.error
        (PyError.dataSiftApiFailure "Unable to decode returned data.") := by
  have h1 : (response.status_code != 204) = true := by
    simpa using h204
  simp [build_response, h1, hbad]

/-- C7 witness: a 200 response with an unparsable body yields the decode
failure. -/
theorem C7_witness :
    build_response (fun _ _ _ v => v) none (fun _ => none)
      { status_code := 200, headers := [], text := "<html>" } none
      = Except.error
          (PyError.dataSiftApiFailure "Unable to decode returned data.") :=
  C7_decode_failure (fun _ _ _ v => v) none (fun _ => none)
    { status_code := 200, headers := [], text := "<html>" } none
    (by decide) rfl

/-- C9 counterexample: a 200 response whose body decodes to the JSON number
`5` does not make `build_response` fall through to `None` — the membership
test `"error" in data` raises a `TypeError` on a non-container payload. -/
theorem C9_counterexample :
    build_response (fun _ _ _ v => v) none (fun _ => some (JSON.num 5))
      { status_code := 200, headers := [], text := "5" } none
      = Except.error PyError.typeError
    ∧ Except.error PyError.typeError
        ≠ (Except.ok BuildOk.noneVal : Except PyError BuildOk) :=
  ⟨rfl, fun h => nomatch h⟩

/-- C9 (amended): for a non-204 response with a 2xx/3xx status whose body
decodes to valid JSON that is neither a mapping nor a list, `build_response`
falls through and returns `None` exactly when the payload is a string not
containing `"error"` as a substring.  In the remaining cases no wrapper is
returned either, but differently than the claim says: for a string
containing `"error"` the error branch is taken and wrapping the non-mapping
payload fails (`ValueError` from `dict.update`), and for a number, boolean
or null payload the membership test `"error" in data` raises a `TypeError`. -/
theorem C9_noncontainer_payload (om : OmFun) (pfx : Option String)
    (parse : String → Option JSON) (response : HttpResponse)
    (path : Option String)
    (h2xx3xx : 200 ≤ response.status_code ∧ response.status_code < 400)
    (h204 : response.status_code ≠ 204) :
    (∀ s : String, parse response.text = some (JSON.str s) →
        containsSub "error".data s.data = false →
        build_response om pfx parse response path = Except.ok BuildOk.noneVal)
    ∧ (∀ s : String, parse response.text = some (JSON.str s) →
        containsSub "error".data s.data = true →
        build_response om pfx parse response path
          = Except.error PyError.valueError)
    ∧ (∀ n : Int, parse response.text = some (JSON.num n) →
        build_response om pfx parse response path
          = Except.error PyError.typeError)
    ∧ (∀ b : Bool, parse response.text = some (JSON.bool b) →
        build_response om pfx parse response path
          = Except.error PyError.typeError)
    ∧ (parse response.text = some JSON.null →
        build_response om pfx parse response path
          = Except.error PyError.typeError) := by
  obtain ⟨hlo, hhi⟩ := h2xx3xx
  have h1 : (response.status_code != 204) = true := by
    simpa using h204
  have h2 : (response.status_code == 401) = false := by
    have : response.status_code ≠ 401 := by omega
    simpa using this
  have hrfs : ¬(400 ≤ response.status_code ∧ response.status_code < 600) := by
    rintro ⟨h4, -⟩
    omega
  refine ⟨?_, ?_, ?_, ?_, ?_⟩
  · intro s hs hsub
    simp [build_response, h1, hs, containsError, hsub, hrfs]
  · intro s hs hsub
    have hne : (s == "") = false := by
      by_cases h : s = ""
      · subst h
        exact absurd hsub (by decide)
      · simpa using h
    simp [build_response, h1, hs, containsError, hsub, h2,
      mkResponse, dictUpdate, hne]
  · intro n hn
    simp [build_response, h1, hn, containsError]
  · intro b hb
    simp [build_response, h1, hb, containsError]
  · intro hnull
    simp [build_response, h1, hnull, containsError]

/-- C9 witness: a 302 response decoding to the string `"hello"` makes
`build_response` return `None` — the fall-through also covers 3xx
statuses, since `raise_for_status` only raises from 400 up. -/
theorem C9_witness :
    build_response (fun _ _ _ v => v) none (fun _ => some (JSON.str "hello"))
      { status_code := 302, headers := [], text := "q" } none
      = Except.ok BuildOk.noneVal :=
  (C9_noncontainer_payload (fun _ _ _ v => v) none
    (fun _ => some (JSON.str "hello"))
    { status_code := 302, headers := [], text := "q" } none
    ⟨by decide, by decide⟩ (by decide)).1 "hello" rfl (by decide)

/-- Lemma: `mapOptionAll` fails as soon as any element fails. -/
theorem mapOptionAll_eq_none {α β : Type} (f : α → Option β) (l : List α)
    (x : α) (hx : x ∈ l) (hfx : f x = none) :
    mapOptionAll f l = none := by
  induction l with
  | nil => cases hx
  | cons a t ih =>
    cases hx with
    | head => simp [mapOptionAll, hfx]
    | tail _ h =>
      cases hfa : f a with
      | none => simp [mapOptionAll, hfa]
      | some y => simp [mapOptionAll, hfa, ih h]

/-- C10 counterexample: for a 200 response whose body decodes to the list
`["error"]`, `build_response` does not raise the generic API error: wrapping
the non-mapping payload in the mapping-shaped `Response` fails inside
`dict.update`, so a `ValueError` propagates instead. -/
theorem C10_counterexample :
    build_response (fun _ _ _ v => v) none
      (fun _ => some (JSON.arr [JSON.str "error"]))
      { status_code := 200, headers := [], text := "x" } none
      = Except.error PyError.valueError
    ∧ isApiException
        (build_response (fun _ _ _ v => v) none
          (fun _ => some (JSON.arr [JSON.str "error"]))
          { status_code := 200, headers := [], text := "x" } none) = false :=
  ⟨rfl, rfl⟩

/-- C10 (amended): the `error` detection is a membership test applied to the
decoded payload regardless of its type, so for a non-401, non-204 response
whose body decodes to a list containing the element `"error"`, or to a
non-empty string containing the substring `"error"`, the error branch is
taken before any shape routing — but constructing the mapping-shaped
`Response` wrapper around such a non-mapping payload fails inside
`dict.update`, so a `ValueError` propagates instead of
`DataSiftApiException`. -/
theorem C10_membership_update_failure (om : OmFun) (pfx : Option String)
    (parse : String → Option JSON) (response : HttpResponse)
    (path : Option String) (h204 : response.status_code ≠ 204)
    (h401 : response.status_code ≠ 401) :
    (∀ elems : List JSON, parse response.text = some (JSON.arr elems) →
        JSON.str "error" ∈ elems →
        build_response om pfx parse response path
          = Except.error PyError.valueError)
    ∧ (∀ s : String, parse response.text = some (JSON.str s) →
        containsSub "error".data s.data = true →
        build_response om pfx parse response path
          = Except.error PyError.valueError) := by
  have h1 : (response.status_code != 204) = true := by
    simpa using h204
  have h2 : (response.status_code == 401) = false := by
    simpa using h401
  constructor
  · intro elems hp hmem
    have hany : (elems.any fun e =>
        match e with | .str s => s == "error" | _ => false) = true := by
      rw [List.any_eq_true]
      exact ⟨JSON.str "error", hmem, by decide⟩
    have hupd : mapOptionAll pairOfElem elems = none :=
      mapOptionAll_eq_none pairOfElem elems (JSON.str "error") hmem rfl
    simp [build_response, h1, hp, containsError, hany, h2,
      mkResponse, dictUpdate, hupd]
  · intro s hp hsub
    have hne : (s == "") = false := by
      by_cases h : s = ""
      · subst h
        exact absurd hsub (by decide)
      · simpa using h
    simp [build_response, h1, hp, containsError, hsub, h2,
      mkResponse, dictUpdate, hne]

/-- C10 witness: even for a 500 response, a decoded list containing the
element `"error"` takes the error branch (no HTTP error is raised) and ends
in the `ValueError` from wrapping the list in the mapping-shaped
`Response`. -/
theorem C10_witness :
    build_response (fun _ _ _ v => v) none
      (fun _ => some (JSON.arr [JSON.num 1, JSON.str "error"]))
      { status_code := 500, headers := [], text := "x" } none
      = Except.error PyError.valueError :=
  (C10_membership_update_failure (fun _ _ _ v => v) none
    (fun _ => some (JSON.arr [JSON.num 1, JSON.str "error"]))
    { status_code := 500, headers := [], text := "x" } none
    (by decide) (by decide)).1 [JSON.num 1, JSON.str "error"] rfl
    (List.Mem.tail _ (List.Mem.head _))

/-- The marshalled params always map `hash` to the stream. -/
theorem createParams_hash (stream : String) (start : Int)
    (parameters sources : List String) (endTime : Option Int) :
    dictGet (createParams stream start parameters sources endTime) "hash"
      = some (JSON.str stream) := by
  cases endTime with
  | none => rfl
  | some e =>
    by_cases he : e = 0
    · subst he; rfl
    · have h : (e != 0) = true := by simpa using he
      simp [createParams, h, insertPair, dictGet]

/-- The marshalled params always map `sources` to the comma-join of the
sources. -/
theorem createParams_sources (stream : String) (start : Int)
    (parameters sources : List String) (endTime : Option Int) :
    dictGet (createParams stream start parameters sources endTime) "sources"
      = some (JSON.str (commaJoin sources)) := by
  cases endTime with
  | none => rfl
  | some e =>
    by_cases he : e = 0
    · subst he; rfl
    · have h : (e != 0) = true := by simpa using he
      simp [createParams, h, insertPair, dictGet, List.find?]

/-- The marshalled params always map `parameters` to the comma-join of the
parameters. -/
theorem createParams_parameters (stream : String) (start : Int)
    (parameters sources : List String) (endTime : Option Int) :
    dictGet (createParams stream start parameters sources endTime)
        "parameters"
      = some (JSON.str (commaJoin parameters)) := by
  cases endTime with
  | none => rfl
  | some e =>
    by_cases he : e = 0
    · subst he; rfl
    · have h : (e != 0) = true := by simpa using he
      simp [createParams, h, insertPair, dictGet, List.find?]

/-- The marshalled params carry the `end` key exactly when the `end`
argument is truthy (provided and non-zero). -/
theorem createParams_end (stream : String) (start : Int)
    (parameters sources : List String) (endTime : Option Int) :
    hasKey (createParams stream start parameters sources endTime) "end"
      = truthyOptInt endTime := by
  cases endTime with
  | none => rfl
  | some e =>
    by_cases he : e = 0
    · subst he; rfl
    · have h : (e != 0) = true := by simpa using he
      simp [createParams, truthyOptInt, h, insertPair, hasKey]

/-- C5 counterexample: with `end = 0` — a provided (if degenerate) Unix
timestamp — `create`'s marshalled params omit the `end` key, because the
code guards it with Python truthiness (`if end:`), so "include `end` iff the
end argument is provided" fails. -/
theorem C5_counterexample :
    hasKey (createParams "h" 1 [] ["twitter"] (some 0)) "end" = false
    ∧ (some (0 : Int)).isSome = true :=
  ⟨rfl, rfl⟩

/-- C5 (amended): for every non-empty sources list, `create` raises no
validation error and issues exactly one transport request: a JSON POST
(serialized params body) to the fixed create endpoint under the `preview`
prefix, whose params map the stream to `hash` and join sources and
parameters with commas — and the params include the `end` key iff the `end`
argument is provided and truthy (non-`None` and non-zero). -/
theorem C5_create_nonempty (base : PartialRequest) (stream : String)
    (start : Int) (parameters sources : List String) (endTime : Option Int)
    (hne : sources ≠ []) :
    ∃ r : RequestRec,
      (HistoricsPreview.init base).create stream start parameters sources
          endTime = Except.ok r
      ∧ networkCalls ((HistoricsPreview.init base).create stream start
          parameters sources endTime) = 1
      ∧ r.method = "post"
      ∧ r.url = "https://api.datasift.com/v1.1/preview/create"
      ∧ r.data = Body.jsonOf (JSON.obj
          (createParams stream start parameters sources endTime))
      ∧ dictGet (createParams stream start parameters sources endTime) "hash"
          = some (JSON.str stream)
      ∧ dictGet (createParams stream start parameters sources endTime)
          "sources" = some (JSON.str (commaJoin sources))
      ∧ dictGet (createParams stream start parameters sources endTime)
          "parameters" = some (JSON.str (commaJoin parameters))
      ∧ hasKey (createParams stream start parameters sources endTime) "end"
          = truthyOptInt endTime := by
  cases sources with
  | nil => exact absurd rfl hne
  | cons a as =>
    refine ⟨_, rfl, rfl, rfl, rfl, rfl, ?_, ?_, ?_, ?_⟩
    · exact createParams_hash stream start parameters (a :: as) endTime
    · exact createParams_sources stream start parameters (a :: as) endTime
    · exact createParams_parameters stream start parameters (a :: as) endTime
    · exact createParams_end stream start parameters (a :: as) endTime

/-- C5 witness: a concrete call with two sources and `end = 5` issues one
request and its params carry the `end` key. -/
theorem C5_witness :
    networkCalls ((HistoricsPreview.init
        { auth := ⟨"u", "k"⟩, pfx := none, headers := none, timeout := none,
          proxies := none, verify := true }).create "h" 1 ["tweets"]
        ["twitter", "facebook"] (some 5)) = 1
    ∧ hasKey (createParams "h" 1 ["tweets"] ["twitter", "facebook"] (some 5))
        "end" = true := by
  obtain ⟨r, -, hcalls, -, -, -, -, -, -, hend⟩ :=
    C5_create_nonempty
      { auth := ⟨"u", "k"⟩, pfx := none, headers := none, timeout := none,
        proxies := none, verify := true }
      "h" 1 ["tweets"] ["twitter", "facebook"] (some 5) (by simp)
  exact ⟨hcalls, by rw [hend]; rfl⟩

end Datasift
